import Mathlib

/-!
Shallow embedding of `src/files/app.py` (bts-rpi-base): a run-loop
controller class `App` with a liveness flag `running`, a tick counter
`counter`, a signal handler installed for SIGTERM and SIGINT, and a
`run()` method that loops doing one unit of work per tick and then calls
`time.sleep(60)`.

Modelling choices, all taken from the source:
* Machine effects are reified as a list of `Effect`s: log records emitted
  via `logger.info` / `logger.error`, and time spent inside `time.sleep`.
* The only asynchronous inputs the program reacts to are POSIX signals
  and a `KeyboardInterrupt` raised during the blocking wait, so each
  tick's wait is driven by one `WaitEvent` from an external schedule.
* `time.sleep` follows CPython semantics (PEP 475, Python >= 3.5): when a
  signal arrives during the sleep and its registered Python handler
  returns normally, the sleep is restarted with a recomputed timeout, so
  the full requested duration elapses.  Only an exception raised out of
  the handler (or `KeyboardInterrupt`) aborts the sleep early.  Since
  `App.run` installs `App.signal_handler` (which returns normally) for
  both SIGINT and SIGTERM, a delivered shutdown signal does not shorten
  the wait.
* The loop body ("unit of work") is the placeholder
  `self.counter += 1; logger.info(...)`; `run` is additionally stated
  against an arbitrary unit of work where the spec talks about injected
  failing work (`except Exception` branch).
-/

namespace BtsApp

/-- Severity of a log record (only `info` and `error` are used by app.py). -/
inductive LogLevel
  | info
  | error
  deriving DecidableEq, Repr

/-- One emitted log record.  `excInfo` mirrors the `exc_info=True` keyword:
whether the record carries the full stack trace. -/
structure LogEvent where
  level : LogLevel
  msg : String
  excInfo : Bool
  deriving DecidableEq, Repr

/-- An observable effect of the program: a log record, or time spent
blocked inside `time.sleep`. -/
inductive Effect
  | log (e : LogEvent)
  | sleepFor (n : Nat)
  deriving DecidableEq, Repr

/-- Time units an effect spends blocking the thread. -/
def Effect.elapsed : Effect → Nat
  | .log _ => 0
  | .sleepFor n => n

/-- Whether an effect blocks the thread (only sleeping does). -/
def Effect.isBlocking : Effect → Bool
  | .log _ => false
  | .sleepFor _ => true

/-- Total blocked time of an effect list. -/
def elapsedOf (effs : List Effect) : Nat :=
  (effs.map Effect.elapsed).sum

/-- The log records among an effect list, in order. -/
def logsOf (effs : List Effect) : List LogEvent :=
  effs.filterMap (fun e =>
    match e with
    | .log l => some l
    | .sleepFor _ => none)

/-- The controller state: exactly the two instance attributes assigned in
`App.__init__` (`self.running`, `self.counter`). -/
structure App where
  running : Bool
  counter : Nat
  deriving DecidableEq, Repr

/-- `App.__init__`: `self.running = True; self.counter = 0`. -/
def mkApp : App := { running := true, counter := 0 }

/-- POSIX signal numbers used by app.py (Linux values). -/
def SIGTERM : Nat := 15

/-- SIGINT signal number. -/
def SIGINT : Nat := 2

/-- `App.signal_handler(self, signum, frame)`:
`logger.info(f"Received signal {signum}, shutting down gracefully...")`
then `self.running = False`.  Returns the new state and the effects the
handler performs. -/
def App.signal_handler (s : App) (signum : Nat) : App × List Effect :=
  ({ s with running := false },
   [.log ⟨.info, "Received signal " ++ toString signum ++
      ", shutting down gracefully...", false⟩])

/-- The signals `App.run` registers `App.signal_handler` for:
`signal.signal(signal.SIGTERM, self.signal_handler)` and
`signal.signal(signal.SIGINT, self.signal_handler)`. -/
def registered_signals : List Nat := [SIGTERM, SIGINT]

/-- `os.environ.get(key, default)` over an association-list environment. -/
def environ_get (env : List (String × String)) (key dflt : String) : String :=
  match env.find? (fun p => p.fst = key) with
  | some p => p.snd
  | none => dflt

/-- `App.log_environment_info(self)`: four `logger.info` calls; the only
environment read is `os.environ.get('VIRTUAL_ENV', 'Not set')` (the
executable, version and working directory are fixed process facts,
abbreviated here as constant strings). -/
def App.log_environment_info (env : List (String × String)) : List Effect :=
  [ .log ⟨.info, "Python executable: /usr/bin/python3", false⟩,
    .log ⟨.info, "Python version: 3", false⟩,
    .log ⟨.info, "Virtual environment: " ++
      environ_get env "VIRTUAL_ENV" "Not set", false⟩,
    .log ⟨.info, "Working directory: /", false⟩ ]

/-- Exceptions that can escape the loop body or the wait:
`KeyboardInterrupt` and any other `Exception` (carrying its message). -/
inductive Exn
  | keyboardInterrupt
  | unexpected (msg : String)
  deriving DecidableEq, Repr

/-- What happens, externally, during one inter-tick `time.sleep(60)`:
nothing; a signal delivered `t` time units in; or a `KeyboardInterrupt`
raised `t` time units in. -/
inductive WaitEvent
  | quiet
  | signal (signum : Nat) (t : Nat)
  | interruptExn (t : Nat)
  deriving DecidableEq, Repr

/-- The fixed inter-tick interval: `time.sleep(60)`. -/
def sleep_interval : Nat := 60

/-- Result of one `time.sleep(sleep_interval)` call: the controller state
afterwards (a delivered signal runs the registered handler), the effects
performed, and the exception propagating out of the sleep, if any. -/
structure SleepResult where
  state : App
  effects : List Effect
  exn : Option Exn
  deriving DecidableEq, Repr

/-- `time.sleep(60)` under the event `ev`, with `App.signal_handler`
registered for the signals in `registered_signals` (as `App.run` does).
Per PEP 475, a signal whose Python handler returns normally causes the
sleep to be retried with a recomputed timeout, so the full interval
elapses; a `KeyboardInterrupt` aborts the sleep after `t` units. -/
def time_sleep (s : App) (ev : WaitEvent) : SleepResult :=
  match ev with
  | .quiet => ⟨s, [.sleepFor sleep_interval], none⟩
  | .signal signum t =>
      if signum ∈ registered_signals then
        match s.signal_handler signum with
        | (s2, heffs) =>
            ⟨s2, [.sleepFor (min t sleep_interval)] ++ heffs ++
              [.sleepFor (sleep_interval - min t sleep_interval)], none⟩
      else
        ⟨s, [.sleepFor sleep_interval], none⟩
  | .interruptExn t => ⟨s, [.sleepFor (min t sleep_interval)], some .keyboardInterrupt⟩

/-- The unit of work the while-loop performs each tick:
`self.counter += 1` and one `logger.info(...)` record.  In app.py this
never raises; the `Except` return type is the shape `App.run`'s
`try`/`except` structure handles. -/
def unit_of_work (s : App) : Except Exn (App × List Effect) :=
  let s2 := { s with counter := s.counter + 1 }
  .ok (s2, [.log ⟨.info, "Application running - Counter: " ++
    toString s2.counter, false⟩])

/-- Outcome of the `while self.running:` loop: final state, effects of
all iterations, number of completed units of work, and the exception that
escaped the loop (caught by `run`'s `except` clauses), if any. -/
structure LoopResult where
  state : App
  effects : List Effect
  ticks : Nat
  exn : Option Exn
  deriving DecidableEq, Repr

/-- The `while self.running:` loop of `App.run`, driven by one
`WaitEvent` per inter-tick sleep.  `none` means the schedule ran out
while the loop would still continue (the real loop runs forever absent
external events). -/
def runLoop (work : App → Except Exn (App × List Effect)) :
    App → List WaitEvent → Option LoopResult
  | s, evs =>
    if s.running then
      match work s with
      | .error e => some ⟨s, [], 0, some e⟩
      | .ok (s1, weffs) =>
        match evs with
        | [] => none
        | ev :: rest =>
          match (time_sleep s1 ev).exn with
          | some e =>
              some ⟨(time_sleep s1 ev).state,
                weffs ++ (time_sleep s1 ev).effects, 1, some e⟩
          | none =>
            match runLoop work (time_sleep s1 ev).state rest with
            | none => none
            | some r =>
              some ⟨r.state, weffs ++ (time_sleep s1 ev).effects ++ r.effects,
                r.ticks + 1, r.exn⟩
    else some ⟨s, [], 0, none⟩

/-- Result of a whole `App.run()` call (all exceptions caught inside):
final state, all effects, completed ticks, and the process exit code
that a `__main__` invocation would produce. -/
structure RunResult where
  state : App
  effects : List Effect
  ticks : Nat
  exitCode : Nat
  deriving DecidableEq, Repr

/-- The start-up effects of `App.run`: the
`logger.info("Starting App service...")` call followed by
`self.log_environment_info()`. -/
def startEffects (env : List (String × String)) : List Effect :=
  .log ⟨.info, "Starting App service...", false⟩ :: App.log_environment_info env

/-- The `except`/`finally` tail of `App.run`: `except KeyboardInterrupt`
logs at info severity; `except Exception as e` logs
`f"Unexpected error: {e}"` at error severity with `exc_info=True`;
`finally` always logs `"App service stopped"`. -/
def tailEffects (exn : Option Exn) : List Effect :=
  (match exn with
   | none => []
   | some .keyboardInterrupt =>
       [.log ⟨.info, "Received keyboard interrupt", false⟩]
   | some (.unexpected m) =>
       [.log ⟨.error, "Unexpected error: " ++ m, true⟩]) ++
  [.log ⟨.info, "App service stopped", false⟩]

/-- `App.run(self)`: register the signal handlers (modelled by
`registered_signals` / `time_sleep`), log startup and environment info,
run the while-loop under `try`, handle `KeyboardInterrupt` and
`Exception`, and run the `finally` cleanup.  No `sys.exit` is called
anywhere, so a `__main__` invocation exits with code 0 on every path
that returns. -/
def App.run (work : App → Except Exn (App × List Effect))
    (env : List (String × String)) (s : App) (evs : List WaitEvent) :
    Option RunResult :=
  match runLoop work s evs with
  | none => none
  | some r =>
      some ⟨r.state, startEffects env ++ r.effects ++ tailEffects r.exn,
        r.ticks, 0⟩

/-- The `if __name__ == "__main__":` block: construct a fresh `App` and
call `run` with the in-source unit of work. -/
def main_run (env : List (String × String)) (evs : List WaitEvent) :
    Option RunResult :=
  App.run unit_of_work env mkApp evs

/-- Two sequential `__main__`-style invocations, each on a freshly
constructed `App` instance. -/
def run_twice (env : List (String × String))
    (evs1 evs2 : List WaitEvent) : Option RunResult × Option RunResult :=
  (App.run unit_of_work env mkApp evs1, App.run unit_of_work env mkApp evs2)

/-- The sequence of controller states an execution of the loop passes
through (after each unit of work and after each sleep), with the
in-source unit of work inlined; used to state trace invariants. -/
def loopStates : App → List WaitEvent → List App
  | s, evs =>
    if s.running then
      match unit_of_work s with
      | .error _ => [s]
      | .ok (s1, _) =>
        match evs with
        | [] => [s1]
        | ev :: rest =>
          match (time_sleep s1 ev).exn with
          | some _ => [s1, (time_sleep s1 ev).state]
          | none =>
              s1 :: (time_sleep s1 ev).state ::
                loopStates (time_sleep s1 ev).state rest
    else []

/-- A unit of work that raises on tick `n` (the spec's injected
error-raising work scenario) and behaves as the in-source work otherwise. -/
def failAt (n : Nat) (m : String) (s : App) : Except Exn (App × List Effect) :=
  if s.counter + 1 = n then .error (.unexpected m) else unit_of_work s

/-- The control-flow observables of a run: final state, completed ticks,
blocked time, and exit code (everything except the log text). -/
def controlObs (r : RunResult) : App × Nat × Nat × Nat :=
  (r.state, r.ticks, elapsedOf r.effects, r.exitCode)

/-! ## Helper lemmas -/

theorem time_sleep_state (s : App) (ev : WaitEvent) :
    (time_sleep s ev).state = s ∨
    (time_sleep s ev).state = { s with running := false } := by
  cases ev with
  | quiet => exact Or.inl rfl
  | signal signum t =>
    by_cases h : signum ∈ registered_signals
    · exact Or.inr (by simp [time_sleep, h, App.signal_handler])
    · exact Or.inl (by simp [time_sleep, h])
  | interruptExn t => exact Or.inl rfl

theorem time_sleep_counter (s : App) (ev : WaitEvent) :
    (time_sleep s ev).state.counter = s.counter := by
  rcases time_sleep_state s ev with h | h <;> rw [h]

theorem time_sleep_keeps_stopped (s : App) (ev : WaitEvent)
    (h : s.running = false) : (time_sleep s ev).state.running = false := by
  rcases time_sleep_state s ev with h2 | h2
  · rw [h2]; exact h
  · rw [h2]

theorem unit_of_work_ok (s : App) :
    unit_of_work s =
      .ok ({ s with counter := s.counter + 1 },
        [.log ⟨.info, "Application running - Counter: " ++
          toString (s.counter + 1), false⟩]) := rfl

theorem elapsedOf_append (a b : List Effect) :
    elapsedOf (a ++ b) = elapsedOf a + elapsedOf b := by
  simp [elapsedOf]

theorem elapsedOf_startEffects (env : List (String × String)) :
    elapsedOf (startEffects env) = 0 := by
  simp [startEffects, App.log_environment_info, elapsedOf, Effect.elapsed]

/-- Every state-to-state relation preserved by the unit of work and by the
sleep step holds along every execution trace of the loop. -/
theorem loopStates_chain (P : App → App → Prop)
    (hwork : ∀ s s1 effs, unit_of_work s = .ok (s1, effs) → P s s1)
    (hsleep : ∀ s ev, P s (time_sleep s ev).state) :
    ∀ (evs : List WaitEvent) (s : App),
      List.Chain' P (s :: loopStates s evs) := by
  intro evs
  induction evs with
  | nil =>
    intro s
    rw [loopStates]
    by_cases hr : s.running = true
    · rw [if_pos hr]
      exact List.chain'_cons.mpr ⟨hwork s _ _ rfl, List.chain'_singleton _⟩
    · rw [if_neg hr]
      exact List.chain'_singleton _
  | cons ev rest ih =>
    intro s
    rw [loopStates]
    by_cases hr : s.running = true
    · rw [if_pos hr]
      simp only [unit_of_work]
      cases hexn : (time_sleep { s with counter := s.counter + 1 } ev).exn with
      | some e =>
        refine List.chain'_cons.mpr ⟨hwork s _ _ rfl, ?_⟩
        exact List.chain'_cons.mpr
          ⟨hsleep { s with counter := s.counter + 1 } ev, List.chain'_singleton _⟩
      | none =>
        refine List.chain'_cons.mpr ⟨hwork s _ _ rfl, ?_⟩
        refine List.chain'_cons.mpr
          ⟨hsleep { s with counter := s.counter + 1 } ev, ?_⟩
        exact ih ((time_sleep { s with counter := s.counter + 1 } ev).state)
    · rw [if_neg hr]
      exact List.chain'_singleton _

theorem logsOf_append (a b : List Effect) :
    logsOf (a ++ b) = logsOf a ++ logsOf b := by
  simp [logsOf]

/-- Completed ticks are counted exactly by the counter: a terminating
loop adds its tick count to the entry counter. -/
theorem runLoop_counter :
    ∀ (evs : List WaitEvent) (s : App) (r : LoopResult),
      runLoop unit_of_work s evs = some r →
      r.state.counter = s.counter + r.ticks := by
  intro evs
  induction evs with
  | nil =>
    intro s r h
    rw [runLoop] at h
    by_cases hr : s.running = true
    · rw [if_pos hr, unit_of_work_ok] at h
      exact Option.noConfusion h
    · rw [if_neg hr] at h
      injection h with h2
      subst h2
      simp
  | cons ev rest ih =>
    intro s r h
    rw [runLoop] at h
    by_cases hr : s.running = true
    · rw [if_pos hr] at h
      simp only [unit_of_work_ok] at h
      cases hexn : (time_sleep { s with counter := s.counter + 1 } ev).exn with
      | some e =>
        rw [hexn] at h
        injection h with h2
        subst h2
        simp [time_sleep_counter]
      | none =>
        rw [hexn] at h
        cases hl : runLoop unit_of_work
            (time_sleep { s with counter := s.counter + 1 } ev).state rest with
        | none => rw [hl] at h; exact Option.noConfusion h
        | some r2 =>
          rw [hl] at h
          injection h with h2
          subst h2
          have h3 := ih ((time_sleep { s with counter := s.counter + 1 } ev).state) r2 hl
          rw [time_sleep_counter] at h3
          replace h3 : r2.state.counter = s.counter + 1 + r2.ticks := h3
          show r2.state.counter = s.counter + (r2.ticks + 1)
          omega
    · rw [if_neg hr] at h
      injection h with h2
      subst h2
      simp

/-! ## Claim theorems -/

/-- C1 (refuted by the code): the spec requires the inter-tick wait to be
interruptible, but delivering SIGTERM (or SIGINT) one time unit into the
sleep leaves the total blocked time at the full `sleep_interval`: the
registered handler returns normally, so `time.sleep` is resumed (PEP 475)
and the wait is not shortened — shutdown is delayed up to the full fixed
interval.  The loop does stop afterwards (`running = false`, one tick). -/
theorem shutdown_signal_does_not_shorten_wait :
    (∃ r, runLoop unit_of_work mkApp [.signal SIGTERM 1] = some r ∧
      r.state.running = false ∧ r.ticks = 1 ∧
      elapsedOf r.effects = sleep_interval ∧
      ¬ elapsedOf r.effects < sleep_interval) ∧
    (∃ r, runLoop unit_of_work mkApp [.signal SIGINT 1] = some r ∧
      r.state.running = false ∧ r.ticks = 1 ∧
      elapsedOf r.effects = sleep_interval ∧
      ¬ elapsedOf r.effects < sleep_interval) := by
  constructor
  · refine ⟨_, rfl, ?_, ?_, ?_, ?_⟩ <;> decide
  · refine ⟨_, rfl, ?_, ?_, ?_, ?_⟩ <;> decide

/-- C3: `App.run` registers `App.signal_handler` for both SIGTERM and
SIGINT, and for every state and signal number the handler sets the
liveness flag to `false` and performs no blocking effect (its only effect
is one log record). -/
theorem run_registers_nonblocking_handler :
    (SIGTERM ∈ registered_signals ∧ SIGINT ∈ registered_signals) ∧
    ∀ (s : App) (signum : Nat),
      (App.signal_handler s signum).fst = { s with running := false } ∧
      ∀ e ∈ (App.signal_handler s signum).snd, e.isBlocking = false := by
  refine ⟨⟨?_, ?_⟩, ?_⟩
  · simp [registered_signals]
  · simp [registered_signals]
  · intro s signum
    refine ⟨rfl, ?_⟩
    intro e he
    simp only [App.signal_handler, List.mem_singleton] at he
    subst he
    rfl

/-- Witness for C3 at a concrete state and SIGTERM. -/
theorem run_registers_nonblocking_handler_witness :
    (App.signal_handler ⟨true, 7⟩ SIGTERM).fst = ⟨false, 7⟩ ∧
    Effect.isBlocking
      (.log ⟨.info, "Received signal " ++ toString SIGTERM ++
        ", shutting down gracefully...", false⟩) = false :=
  ⟨(run_registers_nonblocking_handler.2 ⟨true, 7⟩ SIGTERM).1,
   (run_registers_nonblocking_handler.2 ⟨true, 7⟩ SIGTERM).2 _
     (List.mem_singleton.mpr rfl)⟩

/-- C6: `App.run` never calls `sys.exit`, so every terminating run —
graceful shutdown and unexpected-error path alike, for any unit of work —
yields process exit code 0; the error path is not distinguished by a
nonzero code. -/
theorem exit_code_always_zero :
    ∀ (work : App → Except Exn (App × List Effect))
      (env : List (String × String)) (s : App) (evs : List WaitEvent)
      (r : RunResult),
      App.run work env s evs = some r → r.exitCode = 0 := by
  intro work env s evs r h
  unfold App.run at h
  cases hl : runLoop work s evs with
  | none => rw [hl] at h; exact Option.noConfusion h
  | some lr =>
    rw [hl] at h
    injection h with h2
    rw [← h2]

/-- Witness for C6: a concrete graceful-shutdown run exits 0. -/
theorem exit_code_always_zero_witness :
    ∃ r, main_run [] [.signal SIGTERM 0] = some r ∧ r.exitCode = 0 :=
  ⟨_, rfl, exit_code_always_zero unit_of_work [] mkApp [.signal SIGTERM 0] _ rfl⟩

/-- C8: each freshly constructed instance starts with `running = true`
and `counter = 0`, and the second of two sequential fresh-instance runs
is unaffected by the first: it equals a single run from scratch whatever
the first run's schedule was, and equal schedules give equal outcomes. -/
theorem fresh_instances_behave_identically :
    (mkApp.running = true ∧ mkApp.counter = 0) ∧
    ∀ (env : List (String × String)) (evs1 evs1' evs2 : List WaitEvent),
      (run_twice env evs1 evs2).snd = (run_twice env evs1' evs2).snd ∧
      (run_twice env evs1 evs2).snd = App.run unit_of_work env mkApp evs2 ∧
      (run_twice env evs2 evs2).fst = (run_twice env evs2 evs2).snd :=
  ⟨⟨rfl, rfl⟩, fun _ _ _ _ => ⟨rfl, rfl, rfl⟩⟩

/-- Witness for C8 at concrete schedules. -/
theorem fresh_instances_behave_identically_witness :
    (run_twice [] [.quiet, .signal SIGTERM 3] [.signal SIGTERM 3]).snd =
      (run_twice [] [.interruptExn 0] [.signal SIGTERM 3]).snd :=
  (fresh_instances_behave_identically.2 [] [.quiet, .signal SIGTERM 3]
    [.interruptExn 0] [.signal SIGTERM 3]).1

/-- C9: two runs that differ only in the environment association list
have identical control-flow observables (final state, completed ticks,
blocked time, exit code): the environment read feeds diagnostic log text
only. -/
theorem env_vars_only_affect_logging :
    ∀ (env1 env2 : List (String × String))
      (work : App → Except Exn (App × List Effect))
      (s : App) (evs : List WaitEvent),
      (App.run work env1 s evs).map controlObs =
        (App.run work env2 s evs).map controlObs := by
  intro env1 env2 work s evs
  unfold App.run
  cases hl : runLoop work s evs with
  | none => rfl
  | some lr =>
    simp [controlObs, elapsedOf_append, elapsedOf_startEffects]

/-- Witness for C9: presence versus absence of VIRTUAL_ENV. -/
theorem env_vars_only_affect_logging_witness :
    (App.run unit_of_work [("VIRTUAL_ENV", "/opt/venv")] mkApp
        [.signal SIGINT 2]).map controlObs =
      (App.run unit_of_work [] mkApp [.signal SIGINT 2]).map controlObs :=
  env_vars_only_affect_logging [("VIRTUAL_ENV", "/opt/venv")] []
    unit_of_work mkApp [.signal SIGINT 2]

/-- C2: if the unit of work raises at the state reached for tick N, the
exception is caught inside `run`, an error-severity record with
`exc_info` is logged, the run completes zero further ticks, exits 0, and
the remaining schedule is irrelevant (no retry, no tick N+1); and in the
spec's concrete scenario — work injected to raise on tick 2 of a fresh
controller — the run completes exactly tick 1 and logs the error. -/
theorem work_error_logged_and_loop_stops :
    (∀ (work : App → Except Exn (App × List Effect))
        (env : List (String × String)) (s : App) (evs : List WaitEvent)
        (m : String),
        s.running = true → work s = .error (.unexpected m) →
        App.run work env s evs = App.run work env s [] ∧
        ∃ r, App.run work env s evs = some r ∧ r.ticks = 0 ∧
          r.exitCode = 0 ∧
          (⟨.error, "Unexpected error: " ++ m, true⟩ : LogEvent) ∈
            logsOf r.effects) ∧
    (∀ (m : String), ∃ r,
        App.run (failAt 2 m) [] mkApp [.quiet, .quiet, .quiet] = some r ∧
        r.ticks = 1 ∧
        (⟨.error, "Unexpected error: " ++ m, true⟩ : LogEvent) ∈
          logsOf r.effects) := by
  constructor
  · intro work env s evs m hr hw
    have hloop : ∀ evs2 : List WaitEvent,
        runLoop work s evs2 = some ⟨s, [], 0, some (.unexpected m)⟩ := by
      intro evs2
      rw [runLoop, if_pos hr, hw]
    constructor
    · unfold App.run
      rw [hloop evs, hloop []]
    · refine ⟨⟨s, startEffects env ++ [] ++ tailEffects (some (.unexpected m)),
        0, 0⟩, ?_, rfl, rfl, ?_⟩
      · unfold App.run
        rw [hloop evs]
      · simp [logsOf_append, logsOf, tailEffects]
  · intro m
    refine ⟨_, rfl, rfl, ?_⟩
    simp [logsOf_append, logsOf, tailEffects, startEffects,
      App.log_environment_info]

/-- Witness for C2: work that always raises, on a fresh controller. -/
theorem work_error_logged_and_loop_stops_witness :
    mkApp.running = true ∧
    ∃ r, App.run (fun _ => .error (.unexpected "boom")) [] mkApp [.quiet] =
        some r ∧ r.ticks = 0 ∧ r.exitCode = 0 ∧
      (⟨.error, "Unexpected error: " ++ "boom", true⟩ : LogEvent) ∈
        logsOf r.effects :=
  ⟨rfl, (work_error_logged_and_loop_stops.1
    (fun _ => .error (.unexpected "boom")) [] mkApp [.quiet] "boom" rfl rfl).2⟩

/-- C4: along every execution trace of the loop, once the liveness flag
is false it stays false: no operation of the program (unit of work,
signal handler, sleep) ever sets `running` back to `true`. -/
theorem running_flag_one_way :
    ∀ (evs : List WaitEvent) (s : App),
      List.Chain' (fun a b => a.running = false → b.running = false)
        (s :: loopStates s evs) := by
  intro evs s
  refine loopStates_chain _ ?_
    (fun s0 ev hf => time_sleep_keeps_stopped s0 ev hf) evs s
  intro s0 s1 effs h
  rw [unit_of_work_ok] at h
  injection h with h2
  injection h2 with h3 h4
  subst h3
  exact fun hf => hf

/-- Witness for C4 on a concrete trace containing the shutdown signal. -/
theorem running_flag_one_way_witness :
    List.Chain' (fun a b => a.running = false → b.running = false)
      (mkApp :: loopStates mkApp [.signal SIGTERM 5, .quiet]) :=
  running_flag_one_way [.signal SIGTERM 5, .quiet] mkApp

/-- C5: the unit of work increments the counter by exactly 1; after N
completed units of work on a fresh controller the counter equals N; and
no operation along any execution trace ever lowers the counter. -/
theorem counter_increments_once_per_tick :
    (∀ (s s1 : App) (effs : List Effect),
        unit_of_work s = .ok (s1, effs) → s1.counter = s.counter + 1) ∧
    (∀ (evs : List WaitEvent) (r : LoopResult),
        runLoop unit_of_work mkApp evs = some r →
        r.state.counter = r.ticks) ∧
    (∀ (evs : List WaitEvent) (s : App),
        List.Chain' (fun a b => a.counter ≤ b.counter)
          (s :: loopStates s evs)) := by
  refine ⟨?_, ?_, ?_⟩
  · intro s s1 effs h
    rw [unit_of_work_ok] at h
    injection h with h2
    injection h2 with h3 h4
    subst h3
    rfl
  · intro evs r h
    have h2 := runLoop_counter evs mkApp r h
    simpa [mkApp] using h2
  · intro evs s
    refine loopStates_chain _ ?_ ?_ evs s
    · intro s0 s1 effs h
      rw [unit_of_work_ok] at h
      injection h with h2
      injection h2 with h3 h4
      subst h3
      exact Nat.le_succ _
    · intro s0 ev
      simp [time_sleep_counter]

/-- Witness for C5: three completed ticks leave the counter at 3. -/
theorem counter_increments_once_per_tick_witness :
    ∃ r, runLoop unit_of_work mkApp [.quiet, .quiet, .signal SIGTERM 0] =
        some r ∧ r.state.counter = r.ticks ∧ r.ticks = 3 :=
  ⟨_, rfl,
   counter_increments_once_per_tick.2.1 [.quiet, .quiet, .signal SIGTERM 0]
     _ rfl,
   by decide⟩

/-- C7: a `KeyboardInterrupt` raised during the blocking wait yields the
same shutdown contract as a termination signal: an info-severity record
for the interrupt, only info-severity records overall (no error record),
the cleanup record last, and exit code 0 — for any interrupt time and
environment. -/
theorem keyboard_interrupt_treated_like_signal :
    ∀ (env : List (String × String)) (t : Nat),
      ∃ r1 r2,
        App.run unit_of_work env mkApp [.interruptExn t] = some r1 ∧
        App.run unit_of_work env mkApp [.signal SIGTERM t] = some r2 ∧
        (⟨.info, "Received keyboard interrupt", false⟩ : LogEvent) ∈
          logsOf r1.effects ∧
        (∀ l ∈ logsOf r1.effects, l.level = .info) ∧
        (∀ l ∈ logsOf r2.effects, l.level = .info) ∧
        r1.effects.getLast? =
          some (.log ⟨.info, "App service stopped", false⟩) ∧
        r2.effects.getLast? =
          some (.log ⟨.info, "App service stopped", false⟩) ∧
        r1.exitCode = 0 ∧ r2.exitCode = 0 := by
  intro env t
  refine ⟨_, _, rfl, rfl, ?_, ?_, ?_, ?_, ?_, rfl, rfl⟩
  · simp [logsOf_append, logsOf, startEffects, App.log_environment_info,
      tailEffects, time_sleep, unit_of_work, mkApp]
  · intro l hl
    simp [logsOf_append, logsOf, startEffects, App.log_environment_info,
      tailEffects, time_sleep, unit_of_work, mkApp] at hl
    rcases hl with rfl | rfl | rfl | rfl | rfl | rfl | rfl | rfl <;> rfl
  · intro l hl
    simp [logsOf_append, logsOf, startEffects, App.log_environment_info,
      tailEffects, time_sleep, registered_signals, SIGTERM, unit_of_work,
      mkApp, App.signal_handler] at hl
    rcases hl with rfl | rfl | rfl | rfl | rfl | rfl | rfl | rfl <;> rfl
  · rfl
  · rfl

/-- Witness for C7 at a concrete interrupt time and environment. -/
theorem keyboard_interrupt_treated_like_signal_witness :
    ∃ r1 r2,
      App.run unit_of_work [] mkApp [.interruptExn 30] = some r1 ∧
      App.run unit_of_work [] mkApp [.signal SIGTERM 30] = some r2 ∧
      (⟨.info, "Received keyboard interrupt", false⟩ : LogEvent) ∈
        logsOf r1.effects ∧
      (∀ l ∈ logsOf r1.effects, l.level = .info) ∧
      (∀ l ∈ logsOf r2.effects, l.level = .info) ∧
      r1.effects.getLast? =
        some (.log ⟨.info, "App service stopped", false⟩) ∧
      r2.effects.getLast? =
        some (.log ⟨.info, "App service stopped", false⟩) ∧
      r1.exitCode = 0 ∧ r2.exitCode = 0 :=
  keyboard_interrupt_treated_like_signal [] 30

/-- C10: `App.signal_handler` writes only the liveness flag: the counter
is unchanged and the resulting state is exactly the input state with
`running` set to `false` (the state has no other fields). -/
theorem signal_handler_frame :
    ∀ (s : App) (signum : Nat),
      (App.signal_handler s signum).fst.counter = s.counter ∧
      (App.signal_handler s signum).fst.running = false ∧
      (App.signal_handler s signum).fst =
        { running := false, counter := s.counter } :=
  fun _ _ => ⟨rfl, rfl, rfl⟩

/-- Witness for C10 at a concrete state and SIGINT. -/
theorem signal_handler_frame_witness :
    (App.signal_handler ⟨true, 42⟩ SIGINT).fst.counter = 42 ∧
    (App.signal_handler ⟨true, 42⟩ SIGINT).fst.running = false ∧
    (App.signal_handler ⟨true, 42⟩ SIGINT).fst = ⟨false, 42⟩ :=
  signal_handler_frame ⟨true, 42⟩ SIGINT

end BtsApp
